import Mathlib

/-!
Shallow embedding of the PTA accounting front-end (src/script.js, the
refactored module version: `dataProcessor`, `apiService`, `appController`,
`applicationState`).  Records are the positional tuples
`(rowNumber, date, categoryName, details, amount, payee, memo)`; dates are
modelled by their parsed numeric value (the only use of a date is the
numeric comparison inside the sort comparator), and amounts by rationals
(the parsed value of `parseFloat` / `Number`).
-/

namespace PtaKaikei

/-- One ledger record, the positional tuple used throughout `script.js`.
`date` stands for the numeric value of `new Date(r[1])`, `amount` for the
parsed numeric amount (`parseFloat(amountStr)` / `Number(r[4])`). -/
structure Record where
  rowNumber : Nat
  date : Int
  itemName : String
  details : String
  amount : Rat
  payee : String
  memo : String
deriving DecidableEq, Repr

/-- `dataProcessor.INCOME_ITEM_NAMES`. -/
def INCOME_ITEM_NAMES : List String :=
  ["前年度繰越金", "本年度会費", "資源回収収益", "決算利息", "その他収入"]

/-- `dataProcessor.EXPENSE_ITEM_NAMES`. -/
def EXPENSE_ITEM_NAMES : List String :=
  ["備品・消耗品費", "交流会", "お楽しみ会", "お泊り会おみやげ", "運動会景品",
   "卒園進級記念品代", "学年末お礼代", "クラス担任アルバム", "慶弔費",
   "札幌私立幼稚園PTA連合会会費", "日本スポーツ振興センター負担金",
   "幼稚園寄付金", "用紙・印刷代", "通信費", "予備費"]

/-- `dataProcessor.isIncomeItem`: membership of the name in
`INCOME_ITEM_NAMES` (JS `Array.prototype.includes`, strict string
equality). -/
def isIncomeItem (itemName : String) : Bool :=
  INCOME_ITEM_NAMES.contains itemName

/-- The filter predicate inside `dataProcessor.filterAndSortRecords`:
the callback passed to `records.filter`. -/
def recordPassesFilter (filterItem : String) (record : Record) : Bool :=
  let itemName := record.itemName
  if filterItem == "ALL" then true
  else if filterItem == "_INCOME_ONLY_" then isIncomeItem itemName
  else if filterItem == "_EXPENSES_ONLY_" then !(isIncomeItem itemName)
  else itemName == filterItem

/-- The sort comparator of `filterAndSortRecords` as a boolean order:
ascending compares `dateA - dateB`, anything else (the descending branch)
compares `dateB - dateA`.  JS `Array.prototype.sort` is a stable sort for
this comparator, which `List.mergeSort` with this relation reproduces. -/
def dateLe (sortOrder : String) (a b : Record) : Bool :=
  if sortOrder == "asc" then decide (a.date ≤ b.date) else decide (b.date ≤ a.date)

/-- `dataProcessor.filterAndSortRecords`: filter by the filter key, then
sort a copy of the filtered array by date. -/
def filterAndSortRecords (records : List Record) (filterItem sortOrder : String) :
    List Record :=
  let filteredRecords := records.filter (recordPassesFilter filterItem)
  filteredRecords.mergeSort (dateLe sortOrder)

/-- One checkbox row as seen by `calculateTotalsFromSelection`: the
`checked` flag, the parsed `data-amount`, and the raw string value of
`data-income` (the code compares it to the literal string "true"). -/
structure CheckboxEntry where
  checked : Bool
  amount : Rat
  incomeAttr : String
deriving DecidableEq, Repr

/-- Result shape of `calculateTotalsFromSelection`. -/
structure SelectionTotals where
  incomeTotal : Rat
  expenseTotal : Rat
  balance : Rat
deriving DecidableEq, Repr

/-- One step of the `forEach` loop in `calculateTotalsFromSelection`,
acting on the pair (incomeTotal, expenseTotal). -/
def selectionStep (acc : Rat × Rat) (checkbox : CheckboxEntry) : Rat × Rat :=
  if checkbox.checked then
    if checkbox.incomeAttr == "true" then (acc.1 + checkbox.amount, acc.2)
    else (acc.1, acc.2 + checkbox.amount)
  else acc

/-- `dataProcessor.calculateTotalsFromSelection`. -/
def calculateTotalsFromSelection (checkboxElements : List CheckboxEntry) :
    SelectionTotals :=
  let totals := checkboxElements.foldl selectionStep (0, 0)
  { incomeTotal := totals.1, expenseTotal := totals.2,
    balance := totals.1 - totals.2 }

/-- JS `Map.set(k, Map.get(k) + a)` on an association list whose key `k`
already exists: replace the value at `k`, keep the order. -/
def mapAddAt (m : List (String × Rat)) (k : String) (a : Rat) :
    List (String × Rat) :=
  m.map (fun p => if p.1 == k then (p.1, p.2 + a) else p)

/-- One step of the `records.forEach` loop in `calculateSummary`, acting
on the pair (incomeMap, expenseMap).  `Map.has` is modelled by
`List.lookup` succeeding. -/
def summaryStep (maps : List (String × Rat) × List (String × Rat)) (record : Record) :
    List (String × Rat) × List (String × Rat) :=
  if (maps.1.lookup record.itemName).isSome then
    (mapAddAt maps.1 record.itemName record.amount, maps.2)
  else if (maps.2.lookup record.itemName).isSome then
    (maps.1, mapAddAt maps.2 record.itemName record.amount)
  else maps

/-- One row of `incomeSummary` / `expenseSummary`. -/
structure SummaryItem where
  itemName : String
  totalAmount : Rat
deriving DecidableEq, Repr

/-- Result shape of `calculateSummary`. -/
structure Summary where
  incomeSummary : List SummaryItem
  expenseSummary : List SummaryItem
  totalIncome : Rat
  totalExpense : Rat
  finalBalance : Rat
deriving DecidableEq, Repr

/-- `dataProcessor.calculateSummary`: initialise both maps with the
configured names at 0, accumulate each record into the bucket owning its
category name (records matching neither map are skipped), then read the
grand totals off while materialising the two summaries in map order. -/
def calculateSummary (records : List Record) : Summary :=
  let incomeMap0 := INCOME_ITEM_NAMES.map (fun item => (item, (0 : Rat)))
  let expenseMap0 := EXPENSE_ITEM_NAMES.map (fun item => (item, (0 : Rat)))
  let maps := records.foldl summaryStep (incomeMap0, expenseMap0)
  let totalIncome := maps.1.foldl (fun s p => s + p.2) 0
  let totalExpense := maps.2.foldl (fun s p => s + p.2) 0
  { incomeSummary := maps.1.map (fun p => { itemName := p.1, totalAmount := p.2 }),
    expenseSummary := maps.2.map (fun p => { itemName := p.1, totalAmount := p.2 }),
    totalIncome := totalIncome,
    totalExpense := totalExpense,
    finalBalance := totalIncome - totalExpense }

/-- A parsed JSON response body from the remote service.  `data` is the
record collection of a read response (absent fields default as in JS to a
value the error-handling paths never inspect), `error` is the `error`
field when present (it may be the empty string, which JS treats as
falsy). -/
structure ApiResponse where
  data : List Record := []
  editable : Bool := false
  success : Bool := false
  error : Option String := none
deriving DecidableEq, Repr

/-- What the transport can do on one request: the `fetch` promise rejects
(network unreachable), or a response arrives with an `ok` flag, a status
code, and a body that `response.json()` either parses (`some body`) or
fails to parse (`none`, a thrown SyntaxError). -/
inductive TransportOutcome where
  | networkFailure
  | response (ok : Bool) (status : Nat) (body : Option ApiResponse)
deriving DecidableEq, Repr

/-- The outcome is a transport-level failure: unreachable service,
non-success status (`!response.ok`), or malformed response body. -/
def isTransportFailure (outcome : TransportOutcome) : Bool :=
  match outcome with
  | .networkFailure => true
  | .response ok _ body => !ok || body.isNone

/-- The uniform message produced by the catch block of
`apiService._fetchFromGoogleAppsScript`. -/
def COMMUNICATION_ERROR_MESSAGE : String :=
  "通信に失敗しました。ネットワーク接続を確認してください。"

/-- The try block of `apiService._fetchFromGoogleAppsScript`: await the
fetch, throw on `!response.ok`, await `response.json()` (which throws on
a malformed body).  `Except.error` is a thrown exception. -/
def fetchTryBlock (outcome : TransportOutcome) : Except String ApiResponse :=
  match outcome with
  | .networkFailure => .error "TypeError: Failed to fetch"
  | .response ok status body =>
    if !ok then .error ("サーバーからの応答エラー: " ++ toString status)
    else
      match body with
      | none => .error "SyntaxError: unexpected response body"
      | some parsed => .ok parsed

/-- `apiService._fetchFromGoogleAppsScript`: run the try block; any
thrown exception is caught and converted into the uniform error result.
The action and extra payload only shape the outgoing request, which the
transport outcome abstracts. -/
def fetchFromGoogleAppsScript (requestAction : String)
    (additionalPayload : List (String × String)) (outcome : TransportOutcome) :
    ApiResponse :=
  match requestAction, additionalPayload, fetchTryBlock outcome with
  | _, _, .ok parsed => parsed
  | _, _, .error _ => { error := some COMMUNICATION_ERROR_MESSAGE }

/-- `apiService.fetchAllRecords`. -/
def fetchAllRecords (outcome : TransportOutcome) : ApiResponse :=
  fetchFromGoogleAppsScript "read" [] outcome

/-- `apiService.postNewRecord`. -/
def postNewRecord (recordData : List (String × String))
    (outcome : TransportOutcome) : ApiResponse :=
  fetchFromGoogleAppsScript "write" recordData outcome

/-- `apiService.deleteRecordByRowNumber`. -/
def deleteRecordByRowNumber (rowNumber : Nat) (outcome : TransportOutcome) :
    ApiResponse :=
  fetchFromGoogleAppsScript "delete" [("rowNum", toString rowNumber)] outcome

/-- The mutable `applicationState` object. -/
structure AppState where
  userPasscode : String
  selectedFiscalYear : String
  accountingRecords : List Record
  isEditable : Bool
deriving DecidableEq, Repr

/-- JS truthiness of `result.error`: the field is present and not the
empty string (an absent field is `undefined`, falsy; `""` is falsy). -/
def hasTruthyError (result : ApiResponse) : Bool :=
  match result.error with
  | none => false
  | some message => message != ""

/-- `appController._reloadDataAndRefreshUI`: fetch all records; if the
result has a (truthy) `error` field, alert it and return without touching
the state; otherwise overwrite `accountingRecords` and `isEditable` from
the response.  Returns the state after the call and the alerted message,
if any. -/
def reloadDataAndRefreshUI (state : AppState) (outcome : TransportOutcome) :
    AppState × Option String :=
  let result := fetchAllRecords outcome
  if hasTruthyError result then (state, result.error)
  else
    ({ state with accountingRecords := result.data, isEditable := result.editable },
     none)

/-- A heap of JS arrays, identified by reference (index).  Used to state
mutation-freedom: JS functions receive array references, and only an
in-place operation such as `Array.prototype.sort` changes the array a
reference points to. -/
structure ArrayStore where
  arrays : List (List Record)
deriving DecidableEq, Repr

/-- Allocate a fresh array holding `xs`; returns the new store and the
fresh reference. -/
def allocArray (store : ArrayStore) (xs : List Record) : ArrayStore × Nat :=
  ({ arrays := store.arrays ++ [xs] }, store.arrays.length)

/-- Dereference an array. -/
def readArray (store : ArrayStore) (ref : Nat) : List Record :=
  store.arrays.getD ref []

/-- Overwrite the array a reference points to (an in-place mutation). -/
def writeArray (store : ArrayStore) (ref : Nat) (xs : List Record) : ArrayStore :=
  { arrays := store.arrays.set ref xs }

/-- `filterAndSortRecords` at the level of array references:
`records.filter` allocates a fresh array, the spread `[...filteredRecords]`
allocates a fresh copy of it, and `.sort` mutates that copy in place.
Returns the store after the call and the reference to the result. -/
def filterAndSortRecordsRef (store : ArrayStore) (recordsRef : Nat)
    (filterItem sortOrder : String) : ArrayStore × Nat :=
  let records := readArray store recordsRef
  let (store1, filteredRef) := allocArray store (records.filter (recordPassesFilter filterItem))
  let (store2, copyRef) := allocArray store1 (readArray store1 filteredRef)
  let store3 :=
    writeArray store2 copyRef ((readArray store2 copyRef).mergeSort (dateLe sortOrder))
  (store3, copyRef)

/-! ### Basic facts about the filter predicate -/

lemma recordPassesFilter_all (r : Record) : recordPassesFilter "ALL" r = true := rfl

lemma recordPassesFilter_income (r : Record) :
    recordPassesFilter "_INCOME_ONLY_" r = isIncomeItem r.itemName := rfl

lemma recordPassesFilter_expenses (r : Record) :
    recordPassesFilter "_EXPENSES_ONLY_" r = !(isIncomeItem r.itemName) := rfl

lemma filterAndSortRecords_perm (records : List Record) (filterItem sortOrder : String) :
    (filterAndSortRecords records filterItem sortOrder).Perm
      (records.filter (recordPassesFilter filterItem)) :=
  List.mergeSort_perm _ _

/-- C3: `isIncomeItem` returns true exactly on members of the configured
income-name list, and false on every other string (unrecognized names
included); it reads nothing but the name and, being a total function on
strings, never fails. -/
theorem isIncomeItem_iff_mem (c : String) :
    isIncomeItem c = true ↔ c ∈ INCOME_ITEM_NAMES := by
  simp [isIncomeItem]

/-- C5: with the all-records sentinel, `filterAndSortRecords` returns a
permutation of the full input: every record is kept exactly once, only
the order (by the date sort) changes. -/
theorem filterAndSortRecords_all_perm (records : List Record) (sortOrder : String) :
    (filterAndSortRecords records "ALL" sortOrder).Perm records := by
  have h := filterAndSortRecords_perm records "ALL" sortOrder
  rwa [List.filter_eq_self.mpr (fun a _ => recordPassesFilter_all a)] at h

/-- C10: for every filter key (sentinels, exact category names, and
unrecognized keys alike) and either sort order, the output of
`filterAndSortRecords` draws only on the input: each record of the output
occurs in the input, no more often than there. -/
theorem filterAndSortRecords_no_fabrication (records : List Record)
    (filterItem sortOrder : String) (r : Record) :
    List.count r (filterAndSortRecords records filterItem sortOrder)
      ≤ List.count r records
    ∧ (filterAndSortRecords records filterItem sortOrder).all
        (fun x => records.contains x) = true := by
  have hperm := filterAndSortRecords_perm records filterItem sortOrder
  constructor
  · rw [hperm.count_eq]
    exact (List.filter_sublist records).count_le r
  · rw [List.all_eq_true]
    intro x hx
    have hx' := hperm.mem_iff.mp hx
    simpa using List.mem_of_mem_filter hx'

/-- C4: for every collection and sort order, the income-only view and the
expense-only view are disjoint (every record value occurs in at most one
of them) and together contain exactly the records of the all-records
view, counted with multiplicity. -/
theorem filterAndSortRecords_partition (records : List Record) (sortOrder : String)
    (r : Record) :
    recordPassesFilter "_EXPENSES_ONLY_" r = !(isIncomeItem r.itemName)
    ∧ List.count r (filterAndSortRecords records "_INCOME_ONLY_" sortOrder)
        + List.count r (filterAndSortRecords records "_EXPENSES_ONLY_" sortOrder)
      = List.count r (filterAndSortRecords records "ALL" sortOrder)
    ∧ (List.count r (filterAndSortRecords records "_INCOME_ONLY_" sortOrder) = 0
        ∨ List.count r (filterAndSortRecords records "_EXPENSES_ONLY_" sortOrder) = 0) := by
  have hinc := (filterAndSortRecords_perm records "_INCOME_ONLY_" sortOrder).count_eq r
  have hexp := (filterAndSortRecords_perm records "_EXPENSES_ONLY_" sortOrder).count_eq r
  have hall := (filterAndSortRecords_perm records "ALL" sortOrder).count_eq r
  rw [List.filter_eq_self.mpr (fun a _ => recordPassesFilter_all a)] at hall
  refine ⟨recordPassesFilter_expenses r, ?_⟩
  rw [hinc, hexp, hall]
  by_cases h : isIncomeItem r.itemName = true
  · have h2 : List.count r
        (records.filter (recordPassesFilter "_EXPENSES_ONLY_")) = 0 := by
      rw [List.count_eq_zero]
      intro hmem
      have := (List.mem_filter.mp hmem).2
      rw [recordPassesFilter_expenses] at this
      simp [h] at this
    rw [h2, List.count_filter (by rw [recordPassesFilter_income]; exact h)]
    exact ⟨by omega, Or.inr rfl⟩
  · have hfalse : isIncomeItem r.itemName = false := by
      cases hb : isIncomeItem r.itemName
      · rfl
      · exact absurd hb h
    have h1 : List.count r
        (records.filter (recordPassesFilter "_INCOME_ONLY_")) = 0 := by
      rw [List.count_eq_zero]
      intro hmem
      have := (List.mem_filter.mp hmem).2
      rw [recordPassesFilter_income, hfalse] at this
      exact Bool.false_ne_true this
    rw [h1, List.count_filter (by rw [recordPassesFilter_expenses, hfalse]; rfl)]
    exact ⟨by omega, Or.inl rfl⟩

/-! ### Selection totals -/

/-- Spec-side reading of the selection totals: the amounts of the checked,
income-classified entries (the `data-income` attribute holds the string
"true"). -/
def checkedIncomeAmounts (l : List CheckboxEntry) : List Rat :=
  (l.filter fun c => c.checked && c.incomeAttr == "true").map CheckboxEntry.amount

/-- Spec-side reading of the selection totals: the amounts of the checked,
expense-classified entries. -/
def checkedExpenseAmounts (l : List CheckboxEntry) : List Rat :=
  (l.filter fun c => c.checked && !(c.incomeAttr == "true")).map CheckboxEntry.amount

lemma selection_foldl (l : List CheckboxEntry) (a b : Rat) :
    l.foldl selectionStep (a, b) =
      (a + (checkedIncomeAmounts l).sum, b + (checkedExpenseAmounts l).sum) := by
  induction l generalizing a b with
  | nil => simp [checkedIncomeAmounts, checkedExpenseAmounts]
  | cons c l ih =>
    simp only [List.foldl_cons, selectionStep, checkedIncomeAmounts,
      checkedExpenseAmounts, List.filter_cons] at ih ⊢
    by_cases hc : c.checked <;> by_cases hi : (c.incomeAttr == "true") = true <;>
      simp [hc, hi, ih, add_assoc, add_comm, add_left_comm]

lemma calculateTotalsFromSelection_eq (l : List CheckboxEntry) :
    calculateTotalsFromSelection l =
      { incomeTotal := (checkedIncomeAmounts l).sum,
        expenseTotal := (checkedExpenseAmounts l).sum,
        balance := (checkedIncomeAmounts l).sum - (checkedExpenseAmounts l).sum } := by
  simp only [calculateTotalsFromSelection]
  rw [selection_foldl]
  simp

/-- C2: `calculateTotalsFromSelection` sums exactly the checked entries,
income-classified amounts into `incomeTotal` and the rest into
`expenseTotal`, omitting unchecked entries from both sums; the returned
`balance` is `incomeTotal - expenseTotal`; and unchecking one checked
entry decreases exactly the total matching its classification by that
entry's amount while the other total is unchanged. -/
theorem calculateTotalsFromSelection_correct
    (l l1 l2 : List CheckboxEntry) (e : CheckboxEntry) (hch : e.checked = true) :
    ((calculateTotalsFromSelection l).incomeTotal = (checkedIncomeAmounts l).sum
    ∧ (calculateTotalsFromSelection l).expenseTotal = (checkedExpenseAmounts l).sum
    ∧ (calculateTotalsFromSelection l).balance
        = (calculateTotalsFromSelection l).incomeTotal
          - (calculateTotalsFromSelection l).expenseTotal)
    ∧ (if e.incomeAttr == "true" then
        (calculateTotalsFromSelection (l1 ++ { e with checked := false } :: l2)).incomeTotal
          = (calculateTotalsFromSelection (l1 ++ e :: l2)).incomeTotal - e.amount
        ∧ (calculateTotalsFromSelection (l1 ++ { e with checked := false } :: l2)).expenseTotal
          = (calculateTotalsFromSelection (l1 ++ e :: l2)).expenseTotal
      else
        (calculateTotalsFromSelection (l1 ++ { e with checked := false } :: l2)).expenseTotal
          = (calculateTotalsFromSelection (l1 ++ e :: l2)).expenseTotal - e.amount
        ∧ (calculateTotalsFromSelection (l1 ++ { e with checked := false } :: l2)).incomeTotal
          = (calculateTotalsFromSelection (l1 ++ e :: l2)).incomeTotal) := by
  refine ⟨⟨by rw [calculateTotalsFromSelection_eq],
           by rw [calculateTotalsFromSelection_eq],
           by rw [calculateTotalsFromSelection_eq]⟩, ?_⟩
  by_cases hi : (e.incomeAttr == "true") = true <;>
    simp only [hi, if_true, if_false, Bool.false_eq_true,
      calculateTotalsFromSelection_eq, checkedIncomeAmounts, checkedExpenseAmounts,
      List.filter_append, List.filter_cons, List.map_append, List.sum_append, hch] <;>
    simp [hi] <;> ring

/-- C2 witness: the theorem applied to a concrete checked income entry. -/
theorem calculateTotalsFromSelection_correct_witness :
    (CheckboxEntry.mk true 5 "true").checked = true
    ∧ (((calculateTotalsFromSelection [CheckboxEntry.mk false 7 "true"]).incomeTotal
          = (checkedIncomeAmounts [CheckboxEntry.mk false 7 "true"]).sum
      ∧ (calculateTotalsFromSelection [CheckboxEntry.mk false 7 "true"]).expenseTotal
          = (checkedExpenseAmounts [CheckboxEntry.mk false 7 "true"]).sum
      ∧ (calculateTotalsFromSelection [CheckboxEntry.mk false 7 "true"]).balance
          = (calculateTotalsFromSelection [CheckboxEntry.mk false 7 "true"]).incomeTotal
            - (calculateTotalsFromSelection [CheckboxEntry.mk false 7 "true"]).expenseTotal)
    ∧ (if (CheckboxEntry.mk true 5 "true").incomeAttr == "true" then
        (calculateTotalsFromSelection
            ([] ++ { CheckboxEntry.mk true 5 "true" with checked := false } :: [])).incomeTotal
          = (calculateTotalsFromSelection
              ([] ++ CheckboxEntry.mk true 5 "true" :: [])).incomeTotal
            - (CheckboxEntry.mk true 5 "true").amount
        ∧ (calculateTotalsFromSelection
            ([] ++ { CheckboxEntry.mk true 5 "true" with checked := false } :: [])).expenseTotal
          = (calculateTotalsFromSelection
              ([] ++ CheckboxEntry.mk true 5 "true" :: [])).expenseTotal
      else
        (calculateTotalsFromSelection
            ([] ++ { CheckboxEntry.mk true 5 "true" with checked := false } :: [])).expenseTotal
          = (calculateTotalsFromSelection
              ([] ++ CheckboxEntry.mk true 5 "true" :: [])).expenseTotal
            - (CheckboxEntry.mk true 5 "true").amount
        ∧ (calculateTotalsFromSelection
            ([] ++ { CheckboxEntry.mk true 5 "true" with checked := false } :: [])).incomeTotal
          = (calculateTotalsFromSelection
              ([] ++ CheckboxEntry.mk true 5 "true" :: [])).incomeTotal)) :=
  ⟨rfl, calculateTotalsFromSelection_correct
    [CheckboxEntry.mk false 7 "true"] [] [] (CheckboxEntry.mk true 5 "true") rfl⟩

/-! ### Category summary -/

lemma mapAddAt_fst (m : List (String × Rat)) (k : String) (a : Rat) :
    (mapAddAt m k a).map Prod.fst = m.map Prod.fst := by
  unfold mapAddAt
  rw [List.map_map]
  apply List.map_congr_left
  intro p _
  by_cases h : p.1 = k <;> simp [h]

lemma lookup_isSome_iff (m : List (String × Rat)) (k : String) :
    (m.lookup k).isSome = true ↔ k ∈ m.map Prod.fst := by
  induction m with
  | nil => simp [List.lookup]
  | cons p m ih =>
    obtain ⟨k', v⟩ := p
    cases hb : (k == k') with
    | true =>
      have hk : k = k' := by simpa using hb
      subst hk
      simp [List.lookup]
    | false =>
      have hk : k ≠ k' := by simpa using hb
      simp [List.lookup, hb, ih, hk]

lemma summaryStep_fst (maps : List (String × Rat) × List (String × Rat)) (r : Record) :
    (summaryStep maps r).1.map Prod.fst = maps.1.map Prod.fst
    ∧ (summaryStep maps r).2.map Prod.fst = maps.2.map Prod.fst := by
  unfold summaryStep
  by_cases h1 : (maps.1.lookup r.itemName).isSome = true
  · simp [h1, mapAddAt_fst]
  · by_cases h2 : (maps.2.lookup r.itemName).isSome = true <;>
      simp [h1, h2, mapAddAt_fst]

lemma summary_foldl_fst (l : List Record) (maps : List (String × Rat) × List (String × Rat)) :
    (l.foldl summaryStep maps).1.map Prod.fst = maps.1.map Prod.fst
    ∧ (l.foldl summaryStep maps).2.map Prod.fst = maps.2.map Prod.fst := by
  induction l generalizing maps with
  | nil => exact ⟨rfl, rfl⟩
  | cons r l ih =>
    rw [List.foldl_cons]
    exact ⟨((ih (summaryStep maps r)).1).trans (summaryStep_fst maps r).1,
           ((ih (summaryStep maps r)).2).trans (summaryStep_fst maps r).2⟩

lemma summaryStep_skip (maps : List (String × Rat) × List (String × Rat)) (r : Record)
    (h1 : r.itemName ∉ maps.1.map Prod.fst) (h2 : r.itemName ∉ maps.2.map Prod.fst) :
    summaryStep maps r = maps := by
  have hs1 : (maps.1.lookup r.itemName).isSome = false := by
    rw [← Bool.not_eq_true, lookup_isSome_iff]
    exact h1
  have hs2 : (maps.2.lookup r.itemName).isSome = false := by
    rw [← Bool.not_eq_true, lookup_isSome_iff]
    exact h2
  simp [summaryStep, hs1, hs2]

/-- A record whose category name matches neither configured list is
skipped by the whole summary computation. -/
lemma calculateSummary_skip (l1 l2 : List Record) (r : Record)
    (h1 : r.itemName ∉ INCOME_ITEM_NAMES) (h2 : r.itemName ∉ EXPENSE_ITEM_NAMES) :
    calculateSummary (l1 ++ r :: l2) = calculateSummary (l1 ++ l2) := by
  have hfold : ∀ maps : List (String × Rat) × List (String × Rat),
      maps.1.map Prod.fst = INCOME_ITEM_NAMES →
      maps.2.map Prod.fst = EXPENSE_ITEM_NAMES →
      (l1 ++ r :: l2).foldl summaryStep maps = (l1 ++ l2).foldl summaryStep maps := by
    intro maps hm1 hm2
    rw [List.foldl_append, List.foldl_append, List.foldl_cons]
    congr 1
    apply summaryStep_skip
    · rw [(summary_foldl_fst l1 maps).1, hm1]; exact h1
    · rw [(summary_foldl_fst l1 maps).2, hm2]; exact h2
  simp only [calculateSummary]
  rw [hfold _ (by simp [Function.comp_def]) (by simp [Function.comp_def])]

lemma foldl_add_snd (m : List (String × Rat)) (c : Rat) :
    m.foldl (fun s p => s + p.2) c = c + (m.map Prod.snd).sum := by
  induction m generalizing c with
  | nil => simp
  | cons p m ih => simp [ih, add_assoc]

/-- C1: in the summary report, the reported per-category income rows sum
to the reported `totalIncome`, the per-category expense rows sum to
`totalExpense`, `finalBalance` is their difference, and a record whose
category name is in neither configured list changes nothing in the
summary (no bucket, neither grand total). -/
theorem calculateSummary_correct (records l1 l2 : List Record) (r : Record)
    (h1 : r.itemName ∉ INCOME_ITEM_NAMES) (h2 : r.itemName ∉ EXPENSE_ITEM_NAMES) :
    ((calculateSummary records).incomeSummary.map SummaryItem.totalAmount).sum
        = (calculateSummary records).totalIncome
    ∧ ((calculateSummary records).expenseSummary.map SummaryItem.totalAmount).sum
        = (calculateSummary records).totalExpense
    ∧ (calculateSummary records).finalBalance
        = (calculateSummary records).totalIncome - (calculateSummary records).totalExpense
    ∧ calculateSummary (l1 ++ r :: l2) = calculateSummary (l1 ++ l2) := by
  refine ⟨?_, ?_, rfl, calculateSummary_skip l1 l2 r h1 h2⟩ <;>
    simp [calculateSummary, foldl_add_snd, List.map_map, Function.comp_def]

/-- C1 witness: the theorem applied to the spec's two-record scenario and
a record with the unconfigured category name "ラーメン代". -/
theorem calculateSummary_correct_witness :
    (Record.mk 3 19850 "ラーメン代" "" 800 "" "").itemName ∉ INCOME_ITEM_NAMES
    ∧ (Record.mk 3 19850 "ラーメン代" "" 800 "" "").itemName ∉ EXPENSE_ITEM_NAMES
    ∧ (((calculateSummary [Record.mk 1 19845 "本年度会費" "" 5000 "" "",
            Record.mk 2 19846 "備品・消耗品費" "" 2000 "" ""]).incomeSummary.map
            SummaryItem.totalAmount).sum
        = (calculateSummary [Record.mk 1 19845 "本年度会費" "" 5000 "" "",
            Record.mk 2 19846 "備品・消耗品費" "" 2000 "" ""]).totalIncome
    ∧ ((calculateSummary [Record.mk 1 19845 "本年度会費" "" 5000 "" "",
            Record.mk 2 19846 "備品・消耗品費" "" 2000 "" ""]).expenseSummary.map
            SummaryItem.totalAmount).sum
        = (calculateSummary [Record.mk 1 19845 "本年度会費" "" 5000 "" "",
            Record.mk 2 19846 "備品・消耗品費" "" 2000 "" ""]).totalExpense
    ∧ (calculateSummary [Record.mk 1 19845 "本年度会費" "" 5000 "" "",
            Record.mk 2 19846 "備品・消耗品費" "" 2000 "" ""]).finalBalance
        = (calculateSummary [Record.mk 1 19845 "本年度会費" "" 5000 "" "",
            Record.mk 2 19846 "備品・消耗品費" "" 2000 "" ""]).totalIncome
          - (calculateSummary [Record.mk 1 19845 "本年度会費" "" 5000 "" "",
              Record.mk 2 19846 "備品・消耗品費" "" 2000 "" ""]).totalExpense
    ∧ calculateSummary ([] ++ Record.mk 3 19850 "ラーメン代" "" 800 "" "" :: [])
        = calculateSummary ([] ++ [])) :=
  ⟨by decide, by decide,
   calculateSummary_correct
     [Record.mk 1 19845 "本年度会費" "" 5000 "" "",
      Record.mk 2 19846 "備品・消耗品費" "" 2000 "" ""]
     [] [] (Record.mk 3 19850 "ラーメン代" "" 800 "" "") (by decide) (by decide)⟩

/-- C7: a category name in neither configured list is classified as
expense by the classifier (so the rendered checkbox carries
`data-income="false"` and its checked amount lands in `expenseTotal`,
leaving `incomeTotal` untouched) and passes the expense-only filter, yet
`calculateSummary` drops such a record: no bucket and neither grand total
changes. -/
theorem unrecognizedCategory_expense_default (name : String) (r : Record)
    (a : Rat) (l : List CheckboxEntry) (l1 l2 : List Record)
    (h1 : name ∉ INCOME_ITEM_NAMES) (h2 : name ∉ EXPENSE_ITEM_NAMES)
    (hr : r.itemName = name) :
    isIncomeItem name = false
    ∧ recordPassesFilter "_EXPENSES_ONLY_" r = true
    ∧ recordPassesFilter "_INCOME_ONLY_" r = false
    ∧ calculateTotalsFromSelection
        (l ++ [CheckboxEntry.mk true a (toString (isIncomeItem name))])
        = { incomeTotal := (calculateTotalsFromSelection l).incomeTotal,
            expenseTotal := (calculateTotalsFromSelection l).expenseTotal + a,
            balance := (calculateTotalsFromSelection l).incomeTotal
              - ((calculateTotalsFromSelection l).expenseTotal + a) }
    ∧ calculateSummary (l1 ++ r :: l2) = calculateSummary (l1 ++ l2) := by
  have hfalse : isIncomeItem name = false := by
    cases hb : isIncomeItem name with
    | false => rfl
    | true => exact absurd (by simpa [isIncomeItem] using hb) h1
  refine ⟨hfalse, ?_, ?_, ?_, calculateSummary_skip l1 l2 r (hr ▸ h1) (hr ▸ h2)⟩
  · rw [recordPassesFilter_expenses, hr, hfalse]
    rfl
  · rw [recordPassesFilter_income, hr, hfalse]
  · rw [hfalse]
    have ht : toString false = "false" := rfl
    simp [calculateTotalsFromSelection_eq, checkedIncomeAmounts,
      checkedExpenseAmounts, List.filter_append, ht]

/-- C7 witness: the theorem applied to the unconfigured category name
"ラーメン代". -/
theorem unrecognizedCategory_expense_default_witness :
    "ラーメン代" ∉ INCOME_ITEM_NAMES
    ∧ "ラーメン代" ∉ EXPENSE_ITEM_NAMES
    ∧ (isIncomeItem "ラーメン代" = false
    ∧ recordPassesFilter "_EXPENSES_ONLY_" (Record.mk 3 19850 "ラーメン代" "" 800 "" "") = true
    ∧ recordPassesFilter "_INCOME_ONLY_" (Record.mk 3 19850 "ラーメン代" "" 800 "" "") = false
    ∧ calculateTotalsFromSelection
        ([] ++ [CheckboxEntry.mk true 800 (toString (isIncomeItem "ラーメン代"))])
        = { incomeTotal := (calculateTotalsFromSelection []).incomeTotal,
            expenseTotal := (calculateTotalsFromSelection []).expenseTotal + 800,
            balance := (calculateTotalsFromSelection []).incomeTotal
              - ((calculateTotalsFromSelection []).expenseTotal + 800) }
    ∧ calculateSummary ([] ++ Record.mk 3 19850 "ラーメン代" "" 800 "" "" :: [])
        = calculateSummary ([] ++ [])) :=
  ⟨by decide, by decide,
   unrecognizedCategory_expense_default "ラーメン代"
     (Record.mk 3 19850 "ラーメン代" "" 800 "" "") 800 [] [] []
     (by decide) (by decide) rfl⟩

/-! ### Remote data client and reload -/

/-- C8: every transport-level failure — unreachable service, non-success
status, malformed body — is caught inside `_fetchFromGoogleAppsScript`
and returned as the uniform error result carrying the non-empty
human-readable communication message, for the base client and all three
wrappers alike; the client returns a value instead of throwing. -/
theorem fetch_failure_uniform (requestAction : String)
    (additionalPayload : List (String × String)) (rowNumber : Nat)
    (outcome : TransportOutcome) (h : isTransportFailure outcome = true) :
    fetchFromGoogleAppsScript requestAction additionalPayload outcome
        = { error := some COMMUNICATION_ERROR_MESSAGE }
    ∧ fetchAllRecords outcome = { error := some COMMUNICATION_ERROR_MESSAGE }
    ∧ postNewRecord additionalPayload outcome = { error := some COMMUNICATION_ERROR_MESSAGE }
    ∧ deleteRecordByRowNumber rowNumber outcome = { error := some COMMUNICATION_ERROR_MESSAGE }
    ∧ COMMUNICATION_ERROR_MESSAGE ≠ "" := by
  have hbase : ∀ action payload,
      fetchFromGoogleAppsScript action payload outcome
        = { error := some COMMUNICATION_ERROR_MESSAGE } := by
    intro action payload
    cases outcome with
    | networkFailure => rfl
    | response ok status body =>
      cases ok with
      | false => rfl
      | true =>
        cases body with
        | none => rfl
        | some parsed => simp [isTransportFailure] at h
  exact ⟨hbase _ _, hbase _ _, hbase _ _, hbase _ _, by decide⟩

/-- C8 witness: the theorem applied to an unreachable-service outcome. -/
theorem fetch_failure_uniform_witness :
    isTransportFailure TransportOutcome.networkFailure = true
    ∧ (fetchFromGoogleAppsScript "read" [] TransportOutcome.networkFailure
        = { error := some COMMUNICATION_ERROR_MESSAGE }
    ∧ fetchAllRecords TransportOutcome.networkFailure
        = { error := some COMMUNICATION_ERROR_MESSAGE }
    ∧ postNewRecord [] TransportOutcome.networkFailure
        = { error := some COMMUNICATION_ERROR_MESSAGE }
    ∧ deleteRecordByRowNumber 4 TransportOutcome.networkFailure
        = { error := some COMMUNICATION_ERROR_MESSAGE }
    ∧ COMMUNICATION_ERROR_MESSAGE ≠ "") :=
  ⟨rfl, fetch_failure_uniform "read" [] 4 TransportOutcome.networkFailure rfl⟩

/-- The read response used to refute C9 as stated: it carries an `error`
field whose value is the empty string, which JS treats as falsy. -/
def emptyErrorReadOutcome : TransportOutcome :=
  .response true 200
    (some { data := [Record.mk 1 19845 "本年度会費" "" 5000 "" ""],
            editable := true, error := some "" })

/-- The session state before the reload used to refute C9 as stated. -/
def priorState : AppState :=
  { userPasscode := "p", selectedFiscalYear := "2024",
    accountingRecords := [], isEditable := false }

/-- C9 counterexample: a read response that carries an `error` field
(value `""`) for which `_reloadDataAndRefreshUI` does NOT surface any
message and DOES overwrite the cached record collection and the
edit-permission flag — the claim as stated fails on this input, because
the code tests JS truthiness of `result.error`, not field presence. -/
theorem reload_error_field_counterexample :
    (fetchAllRecords emptyErrorReadOutcome).error = some ""
    ∧ (reloadDataAndRefreshUI priorState emptyErrorReadOutcome).2 = none
    ∧ (reloadDataAndRefreshUI priorState emptyErrorReadOutcome).1.accountingRecords
        ≠ priorState.accountingRecords
    ∧ (reloadDataAndRefreshUI priorState emptyErrorReadOutcome).1.isEditable
        ≠ priorState.isEditable := by
  decide

/-- C9 (amended): when the read response carries a non-empty (truthy)
`error` message, `_reloadDataAndRefreshUI` surfaces exactly that message
and returns the session state unchanged — cached records and
edit-permission flag included. -/
theorem reload_truthy_error_atomic (state : AppState) (outcome : TransportOutcome)
    (message : String) (herr : (fetchAllRecords outcome).error = some message)
    (hne : message ≠ "") :
    reloadDataAndRefreshUI state outcome = (state, some message) := by
  have htruthy : hasTruthyError (fetchAllRecords outcome) = true := by
    simp [hasTruthyError, herr, hne]
  simp [reloadDataAndRefreshUI, htruthy, herr]

/-- C9 witness: the amended theorem applied to a "bad passcode" error
response. -/
theorem reload_truthy_error_atomic_witness :
    (fetchAllRecords (.response true 200 (some { error := some "bad passcode" }))).error
        = some "bad passcode"
    ∧ ("bad passcode" : String) ≠ ""
    ∧ reloadDataAndRefreshUI priorState
        (.response true 200 (some { error := some "bad passcode" }))
        = (priorState, some "bad passcode") :=
  ⟨by decide, by decide,
   reload_truthy_error_atomic priorState
     (.response true 200 (some { error := some "bad passcode" }))
     "bad passcode" (by decide) (by decide)⟩

/-! ### Mutation-freedom of the filter/sort engine -/

lemma readArray_alloc_fresh (store : ArrayStore) (xs : List Record) :
    readArray (allocArray store xs).1 (allocArray store xs).2 = xs := by
  simp [readArray, allocArray, List.getD_eq_getElem?_getD, List.getElem?_concat_length]

lemma readArray_alloc_old (store : ArrayStore) (xs : List Record) (i : Nat)
    (hi : i < store.arrays.length) :
    readArray (allocArray store xs).1 i = readArray store i := by
  simp [readArray, allocArray, List.getD_eq_getElem?_getD, List.getElem?_append_left hi]

/-- C6: `filterAndSortRecords` leaves every pre-existing array of the
store — the input collection included — exactly as it was: the only write
is the in-place sort of the freshly allocated copy, whose reference is
new (at least the old store size), and that fresh array holds exactly the
filtered, sorted output. -/
theorem filterAndSortRecordsRef_no_mutation (store : ArrayStore) (recordsRef i : Nat)
    (filterItem sortOrder : String) (hi : i < store.arrays.length) :
    readArray (filterAndSortRecordsRef store recordsRef filterItem sortOrder).1 i
        = readArray store i
    ∧ store.arrays.length
        ≤ (filterAndSortRecordsRef store recordsRef filterItem sortOrder).2
    ∧ readArray (filterAndSortRecordsRef store recordsRef filterItem sortOrder).1
        (filterAndSortRecordsRef store recordsRef filterItem sortOrder).2
      = filterAndSortRecords (readArray store recordsRef) filterItem sortOrder := by
  have hres : filterAndSortRecordsRef store recordsRef filterItem sortOrder
      = ({ arrays :=
            (store.arrays
              ++ [(readArray store recordsRef).filter (recordPassesFilter filterItem)]
              ++ [(readArray store recordsRef).filter (recordPassesFilter filterItem)]).set
              (store.arrays.length + 1)
              (((readArray store recordsRef).filter (recordPassesFilter filterItem)).mergeSort
                (dateLe sortOrder)) },
         store.arrays.length + 1) := by
    simp only [filterAndSortRecordsRef, allocArray, writeArray]
    rw [show readArray { arrays := store.arrays
          ++ [(readArray store recordsRef).filter (recordPassesFilter filterItem)] }
          store.arrays.length
        = (readArray store recordsRef).filter (recordPassesFilter filterItem) from
      readArray_alloc_fresh store _]
    rw [show readArray { arrays := store.arrays
          ++ [(readArray store recordsRef).filter (recordPassesFilter filterItem)]
          ++ [(readArray store recordsRef).filter (recordPassesFilter filterItem)] }
          (store.arrays
            ++ [(readArray store recordsRef).filter (recordPassesFilter filterItem)]).length
        = (readArray store recordsRef).filter (recordPassesFilter filterItem) from
      readArray_alloc_fresh
        { arrays := store.arrays
            ++ [(readArray store recordsRef).filter (recordPassesFilter filterItem)] } _]
    simp [List.length_append]
  refine ⟨?_, ?_, ?_⟩ <;> rw [hres]
  · simp only [readArray, List.getD_eq_getElem?_getD]
    rw [List.getElem?_set_ne (by omega)]
    rw [List.getElem?_append_left
      (by simp only [List.length_append, List.length_singleton]; omega)]
    rw [List.getElem?_append_left hi]
  · exact Nat.le_succ_of_le (Nat.le_refl _)
  · simp only [readArray, List.getD_eq_getElem?_getD]
    rw [List.getElem?_set_self
      (by simp only [List.length_append, List.length_singleton]; omega)]
    rfl

/-- C6 witness: the theorem applied to a one-array store. -/
theorem filterAndSortRecordsRef_no_mutation_witness :
    0 < (ArrayStore.mk [[Record.mk 1 19845 "本年度会費" "" 5000 "" "",
          Record.mk 2 19846 "備品・消耗品費" "" 2000 "" ""]]).arrays.length
    ∧ (readArray (filterAndSortRecordsRef
          (ArrayStore.mk [[Record.mk 1 19845 "本年度会費" "" 5000 "" "",
            Record.mk 2 19846 "備品・消耗品費" "" 2000 "" ""]]) 0 "ALL" "asc").1 0
        = readArray (ArrayStore.mk [[Record.mk 1 19845 "本年度会費" "" 5000 "" "",
            Record.mk 2 19846 "備品・消耗品費" "" 2000 "" ""]]) 0
    ∧ (ArrayStore.mk [[Record.mk 1 19845 "本年度会費" "" 5000 "" "",
          Record.mk 2 19846 "備品・消耗品費" "" 2000 "" ""]]).arrays.length
        ≤ (filterAndSortRecordsRef
            (ArrayStore.mk [[Record.mk 1 19845 "本年度会費" "" 5000 "" "",
              Record.mk 2 19846 "備品・消耗品費" "" 2000 "" ""]]) 0 "ALL" "asc").2
    ∧ readArray (filterAndSortRecordsRef
          (ArrayStore.mk [[Record.mk 1 19845 "本年度会費" "" 5000 "" "",
            Record.mk 2 19846 "備品・消耗品費" "" 2000 "" ""]]) 0 "ALL" "asc").1
          (filterAndSortRecordsRef
            (ArrayStore.mk [[Record.mk 1 19845 "本年度会費" "" 5000 "" "",
              Record.mk 2 19846 "備品・消耗品費" "" 2000 "" ""]]) 0 "ALL" "asc").2
        = filterAndSortRecords
            (readArray (ArrayStore.mk [[Record.mk 1 19845 "本年度会費" "" 5000 "" "",
              Record.mk 2 19846 "備品・消耗品費" "" 2000 "" ""]]) 0) "ALL" "asc") :=
  ⟨by decide,
   filterAndSortRecordsRef_no_mutation
     (ArrayStore.mk [[Record.mk 1 19845 "本年度会費" "" 5000 "" "",
       Record.mk 2 19846 "備品・消耗品費" "" 2000 "" ""]]) 0 0 "ALL" "asc" (by decide)⟩

end PtaKaikei
